import Mathlib

/-!
Verification of the Auto-Mute audio-session registry and focus-switch
mute/unmute coordinator.

The development shallowly embeds the data model and operations of
`EventHookProcessID.cpp` (second iteration: globals `sessionsList`,
`sessionIdSet`, `eventQueue`, `oldProcessId`, and the functions
`AddAudioSession`, `SwitchMuteStates`, `AudioThreadRoutine`,
`WinEventProc`) and of `EventHookProcessID_APC.cpp` (`AutoMuteRoutine`).

Windows HRESULT codes are modelled as `Int` constants; process ids and
session handles as `Nat`; the external per-session mute state kept by the
audio capability as a function `Nat → Bool`; COM calls that can fail take
their result codes as explicit inputs.
-/

namespace AutoMute

/-- HRESULT success code S_OK. -/
def S_OK : Int := 0

/-- HRESULT success code S_FALSE. -/
def S_FALSE : Int := 1

/-- HRESULT failure code E_POINTER (0x80004003). -/
def E_POINTER : Int := 2147500035

/-- HRESULT failure code E_FAIL (0x80004005). -/
def E_FAIL : Int := 2147500037

/-- HRESULT failure code E_INVALIDARG (0x80070057). -/
def E_INVALIDARG : Int := 2147942487

/-- HRESULT success code AUDCLNT_S_NO_SINGLE_PROCESS (0x0889000D), returned by
`IAudioSessionControl2::GetProcessId` for a cross-process session. -/
def AUDCLNT_S_NO_SINGLE_PROCESS : Int := 143392781

/-- Outcome oracle for the per-session volume calls made by `SwitchMuteStates`:
`qiOk h` tells whether `QueryInterface<ISimpleAudioVolume>` on the session with
handle `h` yields a non-null interface, and `setMuteOk h` whether the
subsequent `SetMute` call succeeds. -/
structure MuteOracle where
  qiOk : Nat → Bool
  setMuteOk : Nat → Bool

/-- Oracle under which every volume call succeeds. -/
def allCallsSucceed : MuteOracle := ⟨fun _ => true, fun _ => true⟩

/-- Handles of the sessions registered under process id `pid`, in registry
order: the image of `sessionsList.equal_range(pid)` (the multimap is a list of
(process id, handle) entries). -/
def sessionsFor (pid : Nat) (sessions : List (Nat × Nat)) : List Nat :=
  (sessions.filter (fun e => e.1 == pid)).map Prod.snd

/-- One `SetMute(b, NULL)` pass over a list of session handles, mirroring the
loop body of `SwitchMuteStates`: per handle, `QueryInterface` for
`ISimpleAudioVolume`; if it yields a pointer the mute call is made (recorded in
the returned trace) and, when the call succeeds, the session's mute state
becomes `b`; the `HRESULT` of `SetMute` is ignored and the loop always
continues. Returns the new mute-state map and the trace of mute calls made. -/
def setMuteRun (o : MuteOracle) (b : Bool) :
    List Nat → (Nat → Bool) → ((Nat → Bool) × List (Nat × Bool))
  | [], m => (m, [])
  | h :: rest, m =>
    if o.qiOk h then
      let m' : Nat → Bool := if o.setMuteOk h then (fun x => if x = h then b else m x) else m
      let r := setMuteRun o b rest m'
      (r.1, (h, b) :: r.2)
    else
      setMuteRun o b rest m

/-- Model of `SwitchMuteStates(oldProc, newProc)` from `EventHookProcessID.cpp`
lines 982-1005: under the registry lock, if the multimap holds entries for
`oldProc`, set mute `true` on each; then, if it holds entries for `newProc`,
set mute `false` on each. Returns the updated external mute state and the
trace of mute calls performed. -/
def switchMuteStates (o : MuteOracle) (oldProc newProc : Nat)
    (sessions : List (Nat × Nat)) (m : Nat → Bool) :
    (Nat → Bool) × List (Nat × Bool) :=
  let r1 := if sessions.countP (fun e => e.1 == oldProc) ≠ 0 then
              setMuteRun o true (sessionsFor oldProc sessions) m
            else (m, [])
  let r2 := if sessions.countP (fun e => e.1 == newProc) ≠ 0 then
              setMuteRun o false (sessionsFor newProc sessions) r1.1
            else (r1.1, [])
  (r2.1, r1.2 ++ r2.2)

/-- Model of the consumer drain loop in `AudioThreadRoutine`
(`EventHookProcessID.cpp` lines 1144-1153): while the queue is non-empty, take
the front event, apply `SwitchMuteStates` to it, and pop it. Returns the final
mute state and the sequence of transitions applied, in application order. -/
def drainQueue (o : MuteOracle) (sessions : List (Nat × Nat)) :
    List (Nat × Nat) → (Nat → Bool) → ((Nat → Bool) × List (Nat × Nat))
  | [], m => (m, [])
  | e :: rest, m =>
    let m' := (switchMuteStates o e.1 e.2 sessions m).1
    let r := drainQueue o sessions rest m'
    (r.1, e :: r.2)

/-- Per-session inputs of one `AddAudioSession(pSession, pAudioSessionEvents)`
call: the result codes of each COM call made on the session, the strings and
process id they produce, and the session's handle (identifying the underlying
`IAudioSessionControl2` object). -/
structure SessionInfo where
  handle : Nat
  hrDisplayName : Int
  hrSessionId : Int
  sessionIdStr : String
  hrInstanceId : Int
  instanceIdStr : String
  hrGetPid : Int
  pid : Nat
  hrRegister : Int
  deriving DecidableEq

/-- Composite session identity string built by `AddAudioSession`:
`to_wstring(sessionProcessId) + "!" + sessionId + "!" + sessionInstance`. -/
def fullSessionId (info : SessionInfo) : String :=
  toString info.pid ++ "!" ++ info.sessionIdStr ++ "!" ++ info.instanceIdStr

/-- Registry state: the identity set `sessionIdSet` and the process-to-session
multimap `sessionsList` (a list of (process id, handle) entries). -/
structure RegState where
  sessionIdSet : List String
  sessionsList : List (Nat × Nat)
  deriving DecidableEq

/-- Result of an `AddAudioSession` call: the registry afterwards, the returned
`HRESULT`, and how many `AddRef` calls were made on the session handle. -/
structure AddResult where
  state : RegState
  hr : Int
  addRefCalls : Nat
  deriving DecidableEq

/-- Model of `AddAudioSession` from `EventHookProcessID.cpp` lines 642-731:
abort on a failing `GetDisplayName`, `GetSessionIdentifier`,
`GetSessionInstanceIdentifier` or `GetProcessId` (the last tolerating
`AUDCLNT_S_NO_SINGLE_PROCESS`); build the composite identity; reject a
duplicate identity with `S_OK` and no insertion; otherwise insert the identity
into `sessionIdSet`, call `RegisterAudioSessionNotification` (aborting unless
it returns `S_OK` or `E_POINTER`), `AddRef` the handle and insert it into
`sessionsList` under the process id `GetProcessId` produced, returning the
registration `HRESULT`. -/
def addAudioSession (info : SessionInfo) (st : RegState) : AddResult :=
  if info.hrDisplayName ≠ S_OK then ⟨st, info.hrDisplayName, 0⟩
  else if info.hrSessionId ≠ S_OK then ⟨st, info.hrSessionId, 0⟩
  else if info.hrInstanceId ≠ S_OK then ⟨st, info.hrInstanceId, 0⟩
  else if info.hrGetPid ≠ S_OK ∧ info.hrGetPid ≠ AUDCLNT_S_NO_SINGLE_PROCESS then
    ⟨st, info.hrGetPid, 0⟩
  else if fullSessionId info ∈ st.sessionIdSet then ⟨st, S_OK, 0⟩
  else
    let st1 : RegState := ⟨st.sessionIdSet ++ [fullSessionId info], st.sessionsList⟩
    if info.hrRegister ≠ S_OK ∧ info.hrRegister ≠ E_POINTER then ⟨st1, info.hrRegister, 0⟩
    else ⟨⟨st1.sessionIdSet, st1.sessionsList ++ [(info.pid, info.handle)]⟩, info.hrRegister, 1⟩

/-- Per-session inputs of one iteration of the enumeration loop in
`AutoMuteRoutine` (`EventHookProcessID_APC.cpp`): result codes of every COM
call made on session number `i`, the process id it reports, and its handle.
`hrSystemSounds` is the result of `IsSystemSoundsSession` (`S_OK` means it is
the system sounds session, `S_FALSE` that it is not). -/
structure APCSession where
  handle : Nat
  hrGetSession : Int
  hrQI2 : Int
  hrSystemSounds : Int
  hrGetPid : Int
  pid : Nat
  hrQIVol : Int
  hrSetMute : Int
  deriving DecidableEq

/-- Model of the session loop of `AutoMuteRoutine` (`EventHookProcessID_APC.cpp`
lines 232-363): per session, abort the loop on a failing `GetSession` or
`QueryInterface`; skip the system-sounds session; abort on an abnormal
`IsSystemSoundsSession` result; skip a cross-process session
(`AUDCLNT_S_NO_SINGLE_PROCESS`, normalised to `S_OK`); abort on any other
`GetProcessId` failure; for a session of the new (resp. previous) process,
`QueryInterface` for `ISimpleAudioVolume` and `SetMute(false)` (resp. `true`),
aborting the loop if either call fails; otherwise leave the session alone. -/
def autoMuteLoop (newProcId prevProcId : Nat) :
    List APCSession → (Nat → Bool) → (Int × (Nat → Bool))
  | [], m => (S_OK, m)
  | s :: rest, m =>
    if s.hrGetSession ≠ S_OK then (s.hrGetSession, m)
    else if s.hrQI2 ≠ S_OK then (s.hrQI2, m)
    else if s.hrSystemSounds = S_OK then autoMuteLoop newProcId prevProcId rest m
    else if s.hrSystemSounds ≠ S_FALSE then (s.hrSystemSounds, m)
    else if s.hrGetPid = AUDCLNT_S_NO_SINGLE_PROCESS then autoMuteLoop newProcId prevProcId rest m
    else if s.hrGetPid ≠ S_OK then (s.hrGetPid, m)
    else if s.pid = newProcId then
      if s.hrQIVol ≠ S_OK then (s.hrQIVol, m)
      else if s.hrSetMute ≠ S_OK then (s.hrSetMute, m)
      else autoMuteLoop newProcId prevProcId rest (fun x => if x = s.handle then false else m x)
    else if s.pid = prevProcId then
      if s.hrQIVol ≠ S_OK then (s.hrQIVol, m)
      else if s.hrSetMute ≠ S_OK then (s.hrSetMute, m)
      else autoMuteLoop newProcId prevProcId rest (fun x => if x = s.handle then true else m x)
    else autoMuteLoop newProcId prevProcId rest m

/-- Model of `AutoMuteRoutine(pSessionMgr, newProcId, prevProcId)` from
`EventHookProcessID_APC.cpp` lines 172-375: reject a zero process id with
`E_INVALIDARG`, equal ids with `S_FALSE`, and a null session manager with
`E_POINTER`; abort on a failing `GetSessionEnumerator` or `GetCount`; then run
the session loop; an `AUDCLNT_S_NO_SINGLE_PROCESS` left in `hr` is normalised
to `S_OK`. Returns the `HRESULT` and the external mute state afterwards. -/
def autoMuteRoutine (mgrNull : Bool) (hrGetEnum hrGetCount : Int)
    (sessions : List APCSession) (newProcId prevProcId : Nat)
    (m : Nat → Bool) : Int × (Nat → Bool) :=
  if newProcId = 0 ∨ prevProcId = 0 then (E_INVALIDARG, m)
  else if newProcId = prevProcId then (S_FALSE, m)
  else if mgrNull then (E_POINTER, m)
  else if hrGetEnum ≠ S_OK then (hrGetEnum, m)
  else if hrGetCount ≠ S_OK then (hrGetCount, m)
  else
    let r := autoMuteLoop newProcId prevProcId sessions m
    (if r.1 = AUDCLNT_S_NO_SINGLE_PROCESS then S_OK else r.1, r.2)

/-- State of the focus-event producer `WinEventProc`
(`EventHookProcessID.cpp`): the remembered global `oldProcessId` (initialised
to `0`) and the global FIFO `eventQueue` of `(oldProcessId, newProcessId)`
pairs, front first. -/
structure HookState where
  oldProcessId : Nat
  eventQueue : List (Nat × Nat)
  deriving DecidableEq

/-- Model of the focus-change branch of `WinEventProc`
(`EventHookProcessID.cpp` lines 1198-1210), with `switchedProcessId` the
process id resolved from the focused window: if it equals the remembered
`oldProcessId` nothing happens; otherwise the pair
`(oldProcessId, switchedProcessId)` is pushed on the queue and
`oldProcessId` is updated to the new process id afterwards. -/
def winEventProc (switchedProcessId : Nat) (st : HookState) : HookState :=
  if switchedProcessId = st.oldProcessId then st
  else ⟨switchedProcessId, st.eventQueue ++ [(st.oldProcessId, switchedProcessId)]⟩

/-- Run `winEventProc` over a sequence of resolved foreground process ids. -/
def runHook (pids : List Nat) (st : HookState) : HookState :=
  pids.foldl (fun s p => winEventProc p s) st

/-- Chaining predicate on a queue of focus events: the first event's
`oldProcessId` equals `x` and each following event's `oldProcessId` equals the
previous event's `newProcessId`. -/
def chainedFrom (x : Nat) : List (Nat × Nat) → Prop
  | [] => True
  | e :: rest => e.1 = x ∧ chainedFrom e.2 rest

/-- Inputs of one run of the startup phase of `AudioThreadRoutine`
(`EventHookProcessID.cpp` lines 1021-1133): result codes of each startup COM
call, the session count reported by the enumerator, and per enumeration index
the results of `GetSession`, `QueryInterface` and the `AddAudioSession`
inputs. -/
structure StartupEnv where
  hrCoInit : Int
  hrGetMgr : Int
  hrRegisterNotif : Int
  hrGetEnum : Int
  hrGetCount : Int
  numSessions : Nat
  hrGetSession : Nat → Int
  hrQI2 : Nat → Int
  sessionAt : Nat → SessionInfo

/-- Model of the startup enumeration loop of `AudioThreadRoutine`: for each
index, break with the failing `HRESULT` of `GetSession` or `QueryInterface`,
or run `AddAudioSession` and break if its result is neither `S_OK` nor
`AUDCLNT_S_NO_SINGLE_PROCESS`. Returns the `hr` left after the loop and the
registry afterwards. -/
def enumLoop (env : StartupEnv) : List Nat → Int → RegState → Int × RegState
  | [], hr, st => (hr, st)
  | i :: rest, _, st =>
    if env.hrGetSession i ≠ S_OK then (env.hrGetSession i, st)
    else if env.hrQI2 i ≠ S_OK then (env.hrQI2 i, st)
    else
      let r := addAudioSession (env.sessionAt i) st
      if r.hr ≠ S_OK ∧ r.hr ≠ AUDCLNT_S_NO_SINGLE_PROCESS then (r.hr, r.state)
      else enumLoop env rest r.hr r.state

/-- Exit record of the startup phase of `AudioThreadRoutine`: the thread
return code (`0` means startup succeeded and the thread proceeded to its wait
loop), whether COM is still initialised, whether the session manager is still
held, whether the session-created notification is still registered, the
handles released during unwinding, and the registry at exit. -/
structure TrackerExit where
  code : Nat
  comActive : Bool
  mgrHeld : Bool
  notifRegistered : Bool
  released : List Nat
  finalState : RegState

/-- Model of the startup phase of `AudioThreadRoutine`
(`EventHookProcessID.cpp` lines 1021-1133). Each failing startup step returns
a distinct code: `CoInitializeEx` 2, `GetIAudioSessionManager2` 3,
`RegisterSessionNotification` 4, `GetSessionEnumerator` 5, `GetCount` 6, the
enumeration loop 7. The code-5, 6 and 7 paths unregister the session
notification, release the manager and release (and unregister notifications
of) every handle in `sessionsList`; the earlier failure paths release
whatever of COM and the manager was acquired (no notification or session
handle exists yet at those points). -/
def audioThreadRoutine (env : StartupEnv) (st0 : RegState) : TrackerExit :=
  if env.hrCoInit ≠ S_OK then ⟨2, false, false, false, [], st0⟩
  else if env.hrGetMgr ≠ S_OK then ⟨3, false, false, false, [], st0⟩
  else if env.hrRegisterNotif ≠ S_OK then ⟨4, false, false, false, [], st0⟩
  else if env.hrGetEnum ≠ S_OK then ⟨5, false, false, false, st0.sessionsList.map Prod.snd, st0⟩
  else if env.hrGetCount ≠ S_OK then ⟨6, false, false, false, st0.sessionsList.map Prod.snd, st0⟩
  else
    let r := enumLoop env (List.range env.numSessions) S_OK st0
    if r.1 ≠ S_OK ∧ r.1 ≠ AUDCLNT_S_NO_SINGLE_PROCESS then
      ⟨7, false, false, false, r.2.sessionsList.map Prod.snd, r.2⟩
    else ⟨0, true, true, true, [], r.2⟩

/-! Helper lemmas about the embedded operations. -/

theorem mem_sessionsFor {p h : Nat} {sessions : List (Nat × Nat)} :
    h ∈ sessionsFor p sessions ↔ (p, h) ∈ sessions := by
  simp only [sessionsFor, List.mem_map, List.mem_filter, beq_iff_eq]
  constructor
  · rintro ⟨⟨a, b⟩, ⟨hmem, hfst⟩, hsnd⟩
    simp only at hfst hsnd
    subst hfst; subst hsnd; exact hmem
  · intro hmem
    exact ⟨(p, h), ⟨hmem, rfl⟩, rfl⟩

theorem sessionsFor_eq_nil_of_countP {p : Nat} {sessions : List (Nat × Nat)}
    (h : sessions.countP (fun e => e.1 == p) = 0) : sessionsFor p sessions = [] := by
  simp only [sessionsFor, List.map_eq_nil_iff]
  rw [List.countP_eq_zero] at h
  exact List.filter_eq_nil_iff.mpr h

theorem setMuteRun_nil (o : MuteOracle) (b : Bool) (m : Nat → Bool) :
    setMuteRun o b [] m = (m, []) := rfl

theorem switchMuteStates_eq (o : MuteOracle) (oldProc newProc : Nat)
    (sessions : List (Nat × Nat)) (m : Nat → Bool) :
    switchMuteStates o oldProc newProc sessions m =
      ((setMuteRun o false (sessionsFor newProc sessions)
          (setMuteRun o true (sessionsFor oldProc sessions) m).1).1,
       (setMuteRun o true (sessionsFor oldProc sessions) m).2 ++
       (setMuteRun o false (sessionsFor newProc sessions)
          (setMuteRun o true (sessionsFor oldProc sessions) m).1).2) := by
  simp only [switchMuteStates]
  by_cases h1 : sessions.countP (fun e => e.1 == oldProc) = 0
  · rw [if_neg (not_not_intro h1), sessionsFor_eq_nil_of_countP h1, setMuteRun_nil]
    by_cases h2 : sessions.countP (fun e => e.1 == newProc) = 0
    · rw [if_neg (not_not_intro h2), sessionsFor_eq_nil_of_countP h2, setMuteRun_nil]
    · rw [if_pos h2]
  · rw [if_pos h1]
    by_cases h2 : sessions.countP (fun e => e.1 == newProc) = 0
    · rw [if_neg (not_not_intro h2), sessionsFor_eq_nil_of_countP h2, setMuteRun_nil]
    · rw [if_pos h2]

theorem setMuteRun_not_mem (o : MuteOracle) (b : Bool) {l : List Nat} {h : Nat}
    (hh : h ∉ l) (m : Nat → Bool) : (setMuteRun o b l m).1 h = m h := by
  induction l generalizing m with
  | nil => rfl
  | cons a t ih =>
    simp only [List.mem_cons, not_or] at hh
    obtain ⟨hne, hnt⟩ := hh
    simp only [setMuteRun]
    by_cases hq : o.qiOk a = true
    · rw [if_pos hq]
      show (setMuteRun o b t _).1 h = m h
      rw [ih hnt]
      by_cases hs : o.setMuteOk a = true
      · rw [if_pos hs]; simp [hne]
      · rw [if_neg hs]
    · rw [if_neg hq]
      exact ih hnt m

theorem setMuteRun_mem (o : MuteOracle) (b : Bool) {l : List Nat} {h : Nat}
    (hmem : h ∈ l) (hqi : o.qiOk h = true) (hsm : o.setMuteOk h = true)
    (m : Nat → Bool) : (setMuteRun o b l m).1 h = b := by
  induction l generalizing m with
  | nil => cases hmem
  | cons a t ih =>
    simp only [setMuteRun]
    by_cases hat : h ∈ t
    · by_cases hq : o.qiOk a = true
      · rw [if_pos hq]
        exact ih hat _
      · rw [if_neg hq]
        exact ih hat m
    · have hha : h = a := by
        rcases List.mem_cons.mp hmem with h1 | h2
        · exact h1
        · exact absurd h2 hat
      subst hha
      rw [if_pos hqi]
      show (setMuteRun o b t _).1 h = b
      rw [setMuteRun_not_mem o b hat, if_pos hsm]
      simp

theorem setMuteRun_trace (o : MuteOracle) (b : Bool) (l : List Nat) (m : Nat → Bool) :
    ∀ c ∈ (setMuteRun o b l m).2, c.2 = b := by
  induction l generalizing m with
  | nil => intro c hc; cases hc
  | cons a t ih =>
    intro c hc
    simp only [setMuteRun] at hc
    by_cases hq : o.qiOk a = true
    · rw [if_pos hq] at hc
      have hc' : c ∈ (a, b) :: (setMuteRun o b t
          (if o.setMuteOk a = true then fun x => if x = a then b else m x else m)).2 := hc
      rcases List.mem_cons.mp hc' with h1 | h2
      · subst h1; rfl
      · exact ih _ c h2
    · rw [if_neg hq] at hc
      exact ih m c hc

theorem nodup_snd_unique {l : List (Nat × Nat)} (hnd : (l.map Prod.snd).Nodup)
    {a b : Nat × Nat} (ha : a ∈ l) (hb : b ∈ l) (hsnd : a.2 = b.2) : a = b :=
  List.inj_on_of_nodup_map hnd ha hb hsnd

/-! Claim theorems. -/

/-- C1: for every registry and distinct non-zero process ids `A` and `B`, with
each handle owned by exactly one registry entry, `SwitchMuteStates(A, B)` (all
volume calls succeeding) sets mute `true` on every session of `A`, mute `false`
on every session of `B`, leaves every session of any other process unchanged,
and performs only mute (`SetMute(true)`) calls when `B` owns no sessions. -/
theorem switchMuteStates_transition (A B : Nat) (sessions : List (Nat × Nat))
    (m : Nat → Bool) (hA : A ≠ 0) (hB : B ≠ 0) (hAB : A ≠ B)
    (hnd : (sessions.map Prod.snd).Nodup) :
    (∀ h ∈ sessionsFor A sessions,
      (switchMuteStates allCallsSucceed A B sessions m).1 h = true) ∧
    (∀ h ∈ sessionsFor B sessions,
      (switchMuteStates allCallsSucceed A B sessions m).1 h = false) ∧
    (∀ p h, (p, h) ∈ sessions → p ≠ A → p ≠ B →
      (switchMuteStates allCallsSucceed A B sessions m).1 h = m h) ∧
    (sessionsFor B sessions = [] →
      ∀ c ∈ (switchMuteStates allCallsSucceed A B sessions m).2, c.2 = true) := by
  refine ⟨?_, ?_, ?_, ?_⟩
  · intro h hmem
    have hnotB : h ∉ sessionsFor B sessions := by
      intro hBmem
      have h1 : (A, h) ∈ sessions := mem_sessionsFor.mp hmem
      have h2 : (B, h) ∈ sessions := mem_sessionsFor.mp hBmem
      exact hAB (congrArg Prod.fst (nodup_snd_unique hnd h1 h2 rfl))
    rw [switchMuteStates_eq, setMuteRun_not_mem _ _ hnotB]
    exact setMuteRun_mem _ _ hmem rfl rfl m
  · intro h hmem
    rw [switchMuteStates_eq]
    exact setMuteRun_mem _ _ hmem rfl rfl _
  · intro p h hmem hpA hpB
    have hnA : h ∉ sessionsFor A sessions := by
      intro hc
      exact hpA (congrArg Prod.fst (nodup_snd_unique hnd hmem (mem_sessionsFor.mp hc) rfl))
    have hnB : h ∉ sessionsFor B sessions := by
      intro hc
      exact hpB (congrArg Prod.fst (nodup_snd_unique hnd hmem (mem_sessionsFor.mp hc) rfl))
    rw [switchMuteStates_eq, setMuteRun_not_mem _ _ hnB, setMuteRun_not_mem _ _ hnA]
  · intro hBnil c hc
    rw [switchMuteStates_eq, hBnil, setMuteRun_nil] at hc
    simp only [List.append_nil] at hc
    exact setMuteRun_trace _ _ _ _ c hc

/-- Witness for C1: registry `{1 → {10}, 2 → {20}, 3 → {30}}`, transition from
process 1 to process 2: session 10 ends muted, 20 unmuted, 30 unchanged. -/
theorem switchMuteStates_transition_witness :
    (switchMuteStates allCallsSucceed 1 2 [(1, 10), (2, 20), (3, 30)]
      (fun _ => false)).1 10 = true :=
  (switchMuteStates_transition 1 2 [(1, 10), (2, 20), (3, 30)] (fun _ => false)
    (by decide) (by decide) (by decide) (by decide)).1 10 (by decide)

/-- C3: registering a session whose composite identity is already in
`sessionIdSet` is a no-op: `AddAudioSession` leaves the registry unchanged and
performs no `AddRef` on the handle. -/
theorem addAudioSession_duplicate_noop (info : SessionInfo) (st : RegState)
    (hdup : fullSessionId info ∈ st.sessionIdSet) :
    (addAudioSession info st).state = st ∧ (addAudioSession info st).addRefCalls = 0 := by
  unfold addAudioSession
  split_ifs with h1 h2 h3 h4 <;> exact ⟨rfl, rfl⟩

/-- Witness for C3: a duplicate of the already-registered identity `3!a!b` is
rejected without changing the registry or taking a reference. -/
theorem addAudioSession_duplicate_noop_witness :
    (addAudioSession ⟨11, S_OK, S_OK, "a", S_OK, "b", S_OK, 3, S_OK⟩
      ⟨["3!a!b"], [(3, 10)]⟩).state = ⟨["3!a!b"], [(3, 10)]⟩ ∧
    (addAudioSession ⟨11, S_OK, S_OK, "a", S_OK, "b", S_OK, 3, S_OK⟩
      ⟨["3!a!b"], [(3, 10)]⟩).addRefCalls = 0 :=
  addAudioSession_duplicate_noop ⟨11, S_OK, S_OK, "a", S_OK, "b", S_OK, 3, S_OK⟩
    ⟨["3!a!b"], [(3, 10)]⟩ (by decide)

/-- C6 counterexample: `SwitchMuteStates` has no equal-id (or zero-id) guard,
so the claimed no-op fails: with process 5 owning session 10, initially muted,
`SwitchMuteStates(5, 5)` first mutes and then unmutes the session, changing
its mute state from `true` to `false`. -/
theorem switchMuteStates_self_not_noop :
    (switchMuteStates allCallsSucceed 5 5 [(5, 10)] (fun _ => true)).1 10 = false := by
  decide

/-- C6 amended: only `AutoMuteRoutine` performs the bad-input check: it rejects
a zero process id locally with `E_INVALIDARG` and equal non-zero ids with
`S_FALSE`, changing no mute state in either case. -/
theorem autoMuteRoutine_rejects_bad_input (mgrNull : Bool) (hrGetEnum hrGetCount : Int)
    (sessions : List APCSession) (newProcId prevProcId : Nat) (m : Nat → Bool) :
    (newProcId = 0 ∨ prevProcId = 0 →
      autoMuteRoutine mgrNull hrGetEnum hrGetCount sessions newProcId prevProcId m
        = (E_INVALIDARG, m)) ∧
    (newProcId ≠ 0 → prevProcId ≠ 0 → newProcId = prevProcId →
      autoMuteRoutine mgrNull hrGetEnum hrGetCount sessions newProcId prevProcId m
        = (S_FALSE, m)) := by
  constructor
  · intro hzero
    unfold autoMuteRoutine
    rw [if_pos hzero]
  · intro h1 h2 heq
    unfold autoMuteRoutine
    rw [if_neg (not_or.mpr ⟨h1, h2⟩), if_pos heq]

/-- Witness for C6: `AutoMuteRoutine` with a zero previous process id returns
`E_INVALIDARG` and leaves the mute state untouched. -/
theorem autoMuteRoutine_rejects_bad_input_witness :
    autoMuteRoutine false S_OK S_OK [] 7 0 (fun _ => false)
      = (E_INVALIDARG, fun _ => false) :=
  (autoMuteRoutine_rejects_bad_input false S_OK S_OK [] 7 0 (fun _ => false)).1
    (Or.inr rfl)

/-- C8 counterexample: in `AutoMuteRoutine` a failing `SetMute` aborts the
batch. Five sessions all belong to the previous process 9 and should end
muted; the `SetMute` call for session 2 fails, the routine returns that
failure, and sessions 3, 4 and 5 never receive their mute state (session 1,
processed before the failure, does). -/
theorem autoMuteRoutine_abort_on_mute_failure :
    (autoMuteRoutine false S_OK S_OK
      [⟨1, S_OK, S_OK, S_FALSE, S_OK, 9, S_OK, S_OK⟩,
       ⟨2, S_OK, S_OK, S_FALSE, S_OK, 9, S_OK, E_FAIL⟩,
       ⟨3, S_OK, S_OK, S_FALSE, S_OK, 9, S_OK, S_OK⟩,
       ⟨4, S_OK, S_OK, S_FALSE, S_OK, 9, S_OK, S_OK⟩,
       ⟨5, S_OK, S_OK, S_FALSE, S_OK, 9, S_OK, S_OK⟩] 7 9 (fun _ => false)).1 = E_FAIL ∧
    (autoMuteRoutine false S_OK S_OK
      [⟨1, S_OK, S_OK, S_FALSE, S_OK, 9, S_OK, S_OK⟩,
       ⟨2, S_OK, S_OK, S_FALSE, S_OK, 9, S_OK, E_FAIL⟩,
       ⟨3, S_OK, S_OK, S_FALSE, S_OK, 9, S_OK, S_OK⟩,
       ⟨4, S_OK, S_OK, S_FALSE, S_OK, 9, S_OK, S_OK⟩,
       ⟨5, S_OK, S_OK, S_FALSE, S_OK, 9, S_OK, S_OK⟩] 7 9 (fun _ => false)).2 1 = true ∧
    (autoMuteRoutine false S_OK S_OK
      [⟨1, S_OK, S_OK, S_FALSE, S_OK, 9, S_OK, S_OK⟩,
       ⟨2, S_OK, S_OK, S_FALSE, S_OK, 9, S_OK, E_FAIL⟩,
       ⟨3, S_OK, S_OK, S_FALSE, S_OK, 9, S_OK, S_OK⟩,
       ⟨4, S_OK, S_OK, S_FALSE, S_OK, 9, S_OK, S_OK⟩,
       ⟨5, S_OK, S_OK, S_FALSE, S_OK, 9, S_OK, S_OK⟩] 7 9 (fun _ => false)).2 3 = false ∧
    (autoMuteRoutine false S_OK S_OK
      [⟨1, S_OK, S_OK, S_FALSE, S_OK, 9, S_OK, S_OK⟩,
       ⟨2, S_OK, S_OK, S_FALSE, S_OK, 9, S_OK, E_FAIL⟩,
       ⟨3, S_OK, S_OK, S_FALSE, S_OK, 9, S_OK, S_OK⟩,
       ⟨4, S_OK, S_OK, S_FALSE, S_OK, 9, S_OK, S_OK⟩,
       ⟨5, S_OK, S_OK, S_FALSE, S_OK, 9, S_OK, S_OK⟩] 7 9 (fun _ => false)).2 4 = false ∧
    (autoMuteRoutine false S_OK S_OK
      [⟨1, S_OK, S_OK, S_FALSE, S_OK, 9, S_OK, S_OK⟩,
       ⟨2, S_OK, S_OK, S_FALSE, S_OK, 9, S_OK, E_FAIL⟩,
       ⟨3, S_OK, S_OK, S_FALSE, S_OK, 9, S_OK, S_OK⟩,
       ⟨4, S_OK, S_OK, S_FALSE, S_OK, 9, S_OK, S_OK⟩,
       ⟨5, S_OK, S_OK, S_FALSE, S_OK, 9, S_OK, S_OK⟩] 7 9 (fun _ => false)).2 5 = false := by
  decide

/-- C8 amended: in `SwitchMuteStates` a per-session volume-call failure does
not abort the batch: every session of the old (resp. new) process whose own
`QueryInterface` and `SetMute` calls succeed still ends muted (resp. unmuted),
whatever calls fail for the other sessions in the batch. -/
theorem switchMuteStates_failure_isolated (o : MuteOracle) (A B : Nat)
    (sessions : List (Nat × Nat)) (m : Nat → Bool) :
    (∀ h ∈ sessionsFor A sessions, h ∉ sessionsFor B sessions → o.qiOk h = true →
      o.setMuteOk h = true → (switchMuteStates o A B sessions m).1 h = true) ∧
    (∀ h ∈ sessionsFor B sessions, o.qiOk h = true → o.setMuteOk h = true →
      (switchMuteStates o A B sessions m).1 h = false) := by
  constructor
  · intro h hmem hnb hqi hsm
    rw [switchMuteStates_eq, setMuteRun_not_mem _ _ hnb]
    exact setMuteRun_mem _ _ hmem hqi hsm m
  · intro h hmem hqi hsm
    rw [switchMuteStates_eq]
    exact setMuteRun_mem _ _ hmem hqi hsm _

/-- Witness for C8: process 1 owns sessions 1-5; the volume call for session 2
fails, yet session 3 still ends muted after `SwitchMuteStates(1, 6)`. -/
theorem switchMuteStates_failure_isolated_witness :
    (switchMuteStates ⟨fun _ => true, fun h => !(h == 2)⟩ 1 6
      [(1, 1), (1, 2), (1, 3), (1, 4), (1, 5)] (fun _ => false)).1 3 = true :=
  (switchMuteStates_failure_isolated ⟨fun _ => true, fun h => !(h == 2)⟩ 1 6
    [(1, 1), (1, 2), (1, 3), (1, 4), (1, 5)] (fun _ => false)).1 3
    (by decide) (by decide) (by decide) (by decide)

set_option maxHeartbeats 1000000 in
/-- Sessions whose `GetProcessId` reports `AUDCLNT_S_NO_SINGLE_PROCESS` are
skipped by the `AutoMuteRoutine` loop: if every listed session bearing handle
`h` is cross-process, the loop leaves the mute state of `h` unchanged. -/
theorem autoMuteLoop_cross_unchanged (newProcId prevProcId h : Nat) :
    ∀ (sessions : List APCSession),
      (∀ s ∈ sessions, s.handle = h → s.hrGetPid = AUDCLNT_S_NO_SINGLE_PROCESS) →
      ∀ m : Nat → Bool, (autoMuteLoop newProcId prevProcId sessions m).2 h = m h := by
  intro sessions
  induction sessions with
  | nil => intro _ m; rfl
  | cons s rest ih =>
    intro hcross m
    have hcr : ∀ s' ∈ rest, s'.handle = h → s'.hrGetPid = AUDCLNT_S_NO_SINGLE_PROCESS :=
      fun s' hs' => hcross s' (List.mem_cons_of_mem _ hs')
    have hs : s.handle = h → s.hrGetPid = AUDCLNT_S_NO_SINGLE_PROCESS :=
      hcross s (List.mem_cons_self _ _)
    simp only [autoMuteLoop]
    split_ifs with h1 h2 h3 h4 h5 h6 h7 h8 h9 h10 h11 h12 <;>
      first
        | rfl
        | exact ih hcr m
        | · rw [ih hcr]
            have hne : h ≠ s.handle := by
              intro heq
              have hpid := hs heq.symm
              rw [hpid] at h6
              exact h6 (by decide)
            rw [if_neg hne]

/-- C2 counterexample: `AddAudioSession` does insert a cross-process session
under a process key, and `SwitchMuteStates` does mute it. A session whose
`GetProcessId` returns `AUDCLNT_S_NO_SINGLE_PROCESS` (writing process id 0) is
inserted into `sessionsList` under key 0, and the transition
`SwitchMuteStates(0, 7)` — which the producer really enqueues as its first
event — sets that session's mute state to `true`. -/
theorem cross_process_inserted_and_muted :
    (addAudioSession ⟨10, S_OK, S_OK, "sid", S_OK, "inst",
        AUDCLNT_S_NO_SINGLE_PROCESS, 0, S_OK⟩ ⟨[], []⟩).state.sessionsList
      = [(0, 10)] ∧
    (switchMuteStates allCallsSucceed 0 7 [(0, 10)] (fun _ => false)).1 10 = true := by
  decide

/-- C2 amended: only `AutoMuteRoutine` (the APC iteration) respects the
policy: a transition never changes the mute state of a session all of whose
registry appearances are cross-process; `AddAudioSession` in the registry
iteration inserts cross-process sessions under the process id value
`GetProcessId` produced, where `SwitchMuteStates` treats them like any other
key. -/
theorem autoMuteRoutine_skips_cross_process (mgrNull : Bool)
    (hrGetEnum hrGetCount : Int) (sessions : List APCSession)
    (newProcId prevProcId : Nat) (m : Nat → Bool) (h : Nat)
    (hcross : ∀ s ∈ sessions, s.handle = h →
      s.hrGetPid = AUDCLNT_S_NO_SINGLE_PROCESS) :
    (autoMuteRoutine mgrNull hrGetEnum hrGetCount sessions newProcId prevProcId m).2 h
      = m h := by
  unfold autoMuteRoutine
  split_ifs <;> first
    | rfl
    | exact autoMuteLoop_cross_unchanged newProcId prevProcId h sessions hcross m

/-- Witness for C2: a cross-process session with handle 10 keeps its mute
state across an `AutoMuteRoutine` transition from process 9 to process 7. -/
theorem autoMuteRoutine_skips_cross_process_witness :
    (autoMuteRoutine false S_OK S_OK
      [⟨10, S_OK, S_OK, S_FALSE, AUDCLNT_S_NO_SINGLE_PROCESS, 0, S_OK, S_OK⟩]
      7 9 (fun _ => true)).2 10 = true :=
  autoMuteRoutine_skips_cross_process false S_OK S_OK
    [⟨10, S_OK, S_OK, S_FALSE, AUDCLNT_S_NO_SINGLE_PROCESS, 0, S_OK, S_OK⟩]
    7 9 (fun _ => true) 10 (by decide)

/-- C4 counterexample: a registration attempt whose per-session notification
registration fails (here with `E_FAIL`) inserts the identity `4!x!y` into the
identity set and then returns without inserting the handle into the mapping,
leaving an identity with no corresponding handle. -/
theorem addAudioSession_failed_register_breaks_pairing :
    (addAudioSession ⟨20, S_OK, S_OK, "x", S_OK, "y", S_OK, 4, E_FAIL⟩
      ⟨[], []⟩).state.sessionIdSet = ["4!x!y"] ∧
    (addAudioSession ⟨20, S_OK, S_OK, "x", S_OK, "y", S_OK, 4, E_FAIL⟩
      ⟨[], []⟩).state.sessionsList = [] := by
  decide

/-- C4 amended: the identity set and the session mapping change in lockstep —
either both unchanged (early failure or duplicate) or both extended by the
matching identity/handle pair — on every `AddAudioSession` call whose
notification-registration step does not fail (returns `S_OK` or `E_POINTER`);
a failing registration instead leaves the freshly inserted identity without
its handle. -/
theorem addAudioSession_lockstep (info : SessionInfo) (st : RegState)
    (hreg : info.hrRegister = S_OK ∨ info.hrRegister = E_POINTER) :
    ((addAudioSession info st).state.sessionIdSet = st.sessionIdSet ∧
     (addAudioSession info st).state.sessionsList = st.sessionsList) ∨
    ((addAudioSession info st).state.sessionIdSet
        = st.sessionIdSet ++ [fullSessionId info] ∧
     (addAudioSession info st).state.sessionsList
        = st.sessionsList ++ [(info.pid, info.handle)]) := by
  unfold addAudioSession
  split_ifs with h1 h2 h3 h4 h5 h6 <;>
    first
      | exact Or.inl ⟨rfl, rfl⟩
      | exact Or.inr ⟨rfl, rfl⟩
      | exact absurd hreg (by rcases h6 with ⟨ha, hb⟩; rintro (hc | hc) <;> simp_all)

/-- Witness for C4: a successful fresh registration extends both the identity
set and the mapping together. -/
theorem addAudioSession_lockstep_witness :
    ((addAudioSession ⟨20, S_OK, S_OK, "x", S_OK, "y", S_OK, 4, S_OK⟩
        ⟨[], []⟩).state.sessionIdSet = [] ∧
     (addAudioSession ⟨20, S_OK, S_OK, "x", S_OK, "y", S_OK, 4, S_OK⟩
        ⟨[], []⟩).state.sessionsList = []) ∨
    ((addAudioSession ⟨20, S_OK, S_OK, "x", S_OK, "y", S_OK, 4, S_OK⟩
        ⟨[], []⟩).state.sessionIdSet = [] ++ ["4!x!y"] ∧
     (addAudioSession ⟨20, S_OK, S_OK, "x", S_OK, "y", S_OK, 4, S_OK⟩
        ⟨[], []⟩).state.sessionsList = [] ++ [(4, 20)]) :=
  addAudioSession_lockstep ⟨20, S_OK, S_OK, "x", S_OK, "y", S_OK, 4, S_OK⟩
    ⟨[], []⟩ (Or.inl rfl)

/-- C5: the consumer drain loop applies the queued transitions in exactly the
enqueue order — the applied-transition trace equals the queue and the final
state is the left fold of `switchMuteStates` over the events in order — and,
for the batch `[(0, P1), (P1, P2), (P2, P3)]` over the registry
`{P1 → {10}, P2 → {20}, P3 → {30}}` with all sessions initially muted, the
drain leaves P1's and P2's sessions muted and P3's session unmuted. -/
theorem drainQueue_fifo_order :
    (∀ (o : MuteOracle) (sessions events : List (Nat × Nat)) (m : Nat → Bool),
      (drainQueue o sessions events m).2 = events ∧
      (drainQueue o sessions events m).1 =
        events.foldl (fun acc e => (switchMuteStates o e.1 e.2 sessions acc).1) m) ∧
    ((drainQueue allCallsSucceed [(1, 10), (2, 20), (3, 30)]
        [(0, 1), (1, 2), (2, 3)] (fun _ => true)).1 10 = true ∧
     (drainQueue allCallsSucceed [(1, 10), (2, 20), (3, 30)]
        [(0, 1), (1, 2), (2, 3)] (fun _ => true)).1 20 = true ∧
     (drainQueue allCallsSucceed [(1, 10), (2, 20), (3, 30)]
        [(0, 1), (1, 2), (2, 3)] (fun _ => true)).1 30 = false) := by
  constructor
  · intro o sessions events
    induction events with
    | nil => intro m; exact ⟨rfl, rfl⟩
    | cons e rest ih =>
      intro m
      constructor
      · show e :: (drainQueue o sessions rest
            ((switchMuteStates o e.1 e.2 sessions m).1)).2 = e :: rest
        rw [(ih _).1]
      · show (drainQueue o sessions rest
            ((switchMuteStates o e.1 e.2 sessions m).1)).1 = _
        rw [(ih _).2, List.foldl_cons]
  · decide

/-- Structure of the queue produced by a run of `WinEventProc`: the producer
appends some list `t` of events to the queue, `t` is chained starting from the
remembered `oldProcessId`, and every appended event has distinct components
with its new process id drawn from the observed foreground process ids. -/
theorem runHook_spec (pids : List Nat) : ∀ st : HookState,
    ∃ t, (runHook pids st).eventQueue = st.eventQueue ++ t ∧
      chainedFrom st.oldProcessId t ∧
      ∀ e ∈ t, e.1 ≠ e.2 ∧ e.2 ∈ pids := by
  induction pids with
  | nil =>
    intro st
    exact ⟨[], by simp [runHook], trivial, fun e he => absurd he (List.not_mem_nil e)⟩
  | cons p rest ih =>
    intro st
    by_cases hp : p = st.oldProcessId
    · obtain ⟨t, h1, h2, h3⟩ := ih st
      refine ⟨t, ?_, h2, fun e he => ⟨(h3 e he).1, List.mem_cons_of_mem _ (h3 e he).2⟩⟩
      show (runHook rest (winEventProc p st)).eventQueue = _
      rw [winEventProc, if_pos hp]
      exact h1
    · obtain ⟨t, h1, h2, h3⟩ :=
        ih ⟨p, st.eventQueue ++ [(st.oldProcessId, p)]⟩
      refine ⟨(st.oldProcessId, p) :: t, ?_, ⟨rfl, h2⟩, ?_⟩
      · show (runHook rest (winEventProc p st)).eventQueue = _
        rw [winEventProc, if_neg hp]
        rw [h1]
        simp
      · intro e he
        rcases List.mem_cons.mp he with heq | hmem
        · subst heq
          exact ⟨fun hEq => hp hEq.symm, List.mem_cons_self _ _⟩
        · exact ⟨(h3 e hmem).1, List.mem_cons_of_mem _ (h3 e hmem).2⟩

/-- Chained events with non-zero new ids and a non-zero start have non-zero
old ids throughout. -/
theorem chainedFrom_olds_ne_zero {x : Nat} {q : List (Nat × Nat)} (hx : x ≠ 0)
    (hch : chainedFrom x q) (hnews : ∀ e ∈ q, e.2 ≠ 0) : ∀ e ∈ q, e.1 ≠ 0 := by
  induction q generalizing x with
  | nil => intro e he; cases he
  | cons e rest ih =>
    intro e' he'
    obtain ⟨h1, h2⟩ := hch
    rcases List.mem_cons.mp he' with heq | hm
    · subst heq; rw [h1]; exact hx
    · exact ih (hnews e (List.mem_cons_self _ _)) h2
        (fun a ha => hnews a (List.mem_cons_of_mem _ ha)) e' hm

/-- In a chained queue with non-zero new ids, every event after the first has
a non-zero old id. -/
theorem chainedFrom_tail_olds {x : Nat} {q : List (Nat × Nat)}
    (hch : chainedFrom x q) (hnews : ∀ e ∈ q, e.2 ≠ 0) :
    ∀ e ∈ q.tail, e.1 ≠ 0 := by
  cases q with
  | nil => intro e he; cases he
  | cons e rest =>
    obtain ⟨_, h2⟩ := hch
    exact chainedFrom_olds_ne_zero (hnews e (List.mem_cons_self _ _)) h2
      (fun a ha => hnews a (List.mem_cons_of_mem _ ha))

/-- C7 counterexample: at startup the remembered process id is 0, so the very
first enqueued FocusEvent is `(0, 5)` — its `oldProcessId` is the zero process
id, contradicting the claim that both components of every enqueued event,
including the first, are non-zero. -/
theorem first_event_old_pid_zero :
    (runHook [5] ⟨0, []⟩).eventQueue = [(0, 5)] := by decide

/-- C7 amended: every enqueued FocusEvent has `oldProcessId ≠ newProcessId`
and (when every resolved foreground process id is non-zero) a non-zero
`newProcessId`; every event after the first also has a non-zero
`oldProcessId`; but the first enqueued event after startup carries the
initial remembered value 0 as its `oldProcessId`. -/
theorem winEventProc_enqueue_props (pids : List Nat)
    (hnz : ∀ p ∈ pids, p ≠ 0) :
    (∀ e ∈ (runHook pids ⟨0, []⟩).eventQueue, e.1 ≠ e.2) ∧
    (∀ e ∈ (runHook pids ⟨0, []⟩).eventQueue, e.2 ≠ 0) ∧
    (∀ e ∈ (runHook pids ⟨0, []⟩).eventQueue.tail, e.1 ≠ 0) ∧
    (∀ e ∈ (runHook pids ⟨0, []⟩).eventQueue.take 1, e.1 = 0) := by
  obtain ⟨t, h1, h2, h3⟩ := runHook_spec pids ⟨0, []⟩
  have hq : (runHook pids ⟨0, []⟩).eventQueue = t := by simpa using h1
  rw [hq]
  refine ⟨fun e he => (h3 e he).1, fun e he => hnz _ (h3 e he).2, ?_, ?_⟩
  · exact chainedFrom_tail_olds h2 (fun e he => hnz _ (h3 e he).2)
  · cases t with
    | nil => intro e he; cases he
    | cons e rest =>
      intro e' he'
      have : e' = e := by simpa [List.take] using he'
      subst this
      exact h2.1

/-- Witness for C7: for the resolved foreground sequence `[5, 7]` the queue is
`[(0, 5), (5, 7)]` and the second event's new process id is non-zero. -/
theorem winEventProc_enqueue_props_witness :
    (runHook [5, 7] ⟨0, []⟩).eventQueue = [(0, 5), (5, 7)] ∧
    ((5, 7) : Nat × Nat).2 ≠ 0 :=
  ⟨by decide,
   (winEventProc_enqueue_props [5, 7] (by decide)).2.1 (5, 7) (by decide)⟩

/-- C10: consecutive enqueued FocusEvents chain — starting from the initial
remembered process id 0, each enqueued event's `oldProcessId` equals the
previous event's `newProcessId` (and the first event's equals 0), for every
sequence of foreground callbacks. -/
theorem winEventProc_events_chain (pids : List Nat) :
    chainedFrom 0 (runHook pids ⟨0, []⟩).eventQueue := by
  obtain ⟨t, h1, h2, _⟩ := runHook_spec pids ⟨0, []⟩
  have hq : (runHook pids ⟨0, []⟩).eventQueue = t := by simpa using h1
  rw [hq]
  exact h2

set_option maxHeartbeats 1000000 in
/-- C9: each failing startup step of `AudioThreadRoutine` yields its own
distinct thread return code (`CoInitializeEx` 2, session-manager acquisition
3, notification registration 4, enumerator acquisition 5, session count 6,
enumeration loop 7); on every failure the thread unwinds — COM uninitialised,
manager released, session-created notification no longer registered — the
code-5/6/7 paths release every handle present in the registry, and the
code-2/3/4 paths (reached before any enumeration) leave the registry exactly
as it started, no handle having been registered. -/
theorem audioThreadRoutine_startup_failure (env : StartupEnv) (st0 : RegState) :
    (env.hrCoInit ≠ S_OK → (audioThreadRoutine env st0).code = 2) ∧
    (env.hrCoInit = S_OK → env.hrGetMgr ≠ S_OK →
      (audioThreadRoutine env st0).code = 3) ∧
    (env.hrCoInit = S_OK → env.hrGetMgr = S_OK → env.hrRegisterNotif ≠ S_OK →
      (audioThreadRoutine env st0).code = 4) ∧
    (env.hrCoInit = S_OK → env.hrGetMgr = S_OK → env.hrRegisterNotif = S_OK →
      env.hrGetEnum ≠ S_OK → (audioThreadRoutine env st0).code = 5) ∧
    (env.hrCoInit = S_OK → env.hrGetMgr = S_OK → env.hrRegisterNotif = S_OK →
      env.hrGetEnum = S_OK → env.hrGetCount ≠ S_OK →
      (audioThreadRoutine env st0).code = 6) ∧
    (env.hrCoInit = S_OK → env.hrGetMgr = S_OK → env.hrRegisterNotif = S_OK →
      env.hrGetEnum = S_OK → env.hrGetCount = S_OK →
      (enumLoop env (List.range env.numSessions) S_OK st0).1 ≠ S_OK →
      (enumLoop env (List.range env.numSessions) S_OK st0).1
        ≠ AUDCLNT_S_NO_SINGLE_PROCESS →
      (audioThreadRoutine env st0).code = 7) ∧
    ((audioThreadRoutine env st0).code ≠ 0 →
      (audioThreadRoutine env st0).comActive = false ∧
      (audioThreadRoutine env st0).mgrHeld = false ∧
      (audioThreadRoutine env st0).notifRegistered = false) ∧
    ((audioThreadRoutine env st0).code = 5 ∨ (audioThreadRoutine env st0).code = 6 ∨
        (audioThreadRoutine env st0).code = 7 →
      ∀ h ∈ (audioThreadRoutine env st0).finalState.sessionsList.map Prod.snd,
        h ∈ (audioThreadRoutine env st0).released) ∧
    ((audioThreadRoutine env st0).code = 2 ∨ (audioThreadRoutine env st0).code = 3 ∨
        (audioThreadRoutine env st0).code = 4 →
      (audioThreadRoutine env st0).finalState = st0) := by
  simp only [audioThreadRoutine]
  split_ifs with h1 h2 h3 h4 h5 h6 <;>
    refine ⟨?_, ?_, ?_, ?_, ?_, ?_, ?_, ?_, ?_⟩ <;>
    simp_all <;>
    try assumption

/-- Witness for C9: a failing `CoInitializeEx` (returning `E_FAIL`) makes the
tracker thread exit with code 2. -/
theorem audioThreadRoutine_startup_failure_witness :
    (audioThreadRoutine
      ⟨E_FAIL, S_OK, S_OK, S_OK, S_OK, 0, fun _ => S_OK, fun _ => S_OK,
        fun _ => ⟨0, S_OK, S_OK, "", S_OK, "", S_OK, 0, S_OK⟩⟩ ⟨[], []⟩).code = 2 :=
  (audioThreadRoutine_startup_failure
    ⟨E_FAIL, S_OK, S_OK, S_OK, S_OK, 0, fun _ => S_OK, fun _ => S_OK,
      fun _ => ⟨0, S_OK, S_OK, "", S_OK, "", S_OK, 0, S_OK⟩⟩ ⟨[], []⟩).1 (by decide)

end AutoMute
